import Mathlib

/-!
Shallow embedding of `src/index.js` of the companion-module-openweather-rest
repository (an OpenWeatherMap polling module).

Numbers of the JavaScript source are modelled as exact rationals (`ℚ`) and,
where the source only ever holds integers (epoch milliseconds, offsets in
seconds, HTTP status codes), as `ℤ`.  `Math.floor` is `Int.floor`, the
JavaScript `%` operator (truncating remainder) is `jsMod` / `Int.tmod`.
External I/O effects (logging, `updateStatus`, `checkFeedbacks`, the actual
HTTP transport and the Jimp image pipeline) carry no data back into the state
that the claims mention; they are dropped, and the *decision* to issue an HTTP
GET is returned as an explicit value so that theorems can count fetches.

The repository imports `constants.js` (`BASE_URL`, `C_DEGREE`, `C_WINDIR`,
`VARIABLE_LIST`), a file that is not under `src/`; those constants are
modelled from the spec and are marked as such in their doc comments.
-/

namespace OW

/-- A JavaScript value stored into a companion variable: the module publishes
strings (formatted temperatures, times, ...), raw numbers (pressures, speeds)
and one boolean (`c_day`). -/
inductive JSVal where
  | str (s : String) : JSVal
  | num (q : ℚ) : JSVal
  | bool (b : Bool) : JSVal
deriving DecidableEq

/-- The module configuration (`this.config`): API key, location, measurement
units (`"i"` imperial / `"m"` metric), timezone mode (`"l"` location /
`"h"` host-local / `"u"` UTC) and the refresh frequency in minutes. -/
structure Config where
  apikey : String
  location : String
  units : String
  tz : String
  refresh : ℤ
deriving DecidableEq

/-- `data.main` of the raw weather document. -/
structure MainData where
  temp : ℚ
  feels_like : ℚ
  pressure : ℚ
  humidity : ℤ
deriving DecidableEq

/-- `data.wind` of the raw weather document. -/
structure WindData where
  speed : ℚ
  deg : ℚ
deriving DecidableEq

/-- `data.sys` of the raw weather document (sunrise/sunset epoch seconds). -/
structure SysData where
  sunrise : ℤ
  sunset : ℤ
deriving DecidableEq

/-- One entry of `data.weather` (condition code list). -/
structure WeatherCond where
  icon : String
  main : String
  description : String
deriving DecidableEq

/-- The raw weather document returned by the provider on a 200 response:
`name`, observation epoch `dt`, UTC offset `timezone` (seconds), and the
nested sections used by `update_variables`. -/
structure WeatherDoc where
  name : String
  dt : ℤ
  timezone : ℤ
  main : MainData
  wind : WindData
  sys : SysData
  weather : List WeatherCond
deriving DecidableEq

/-- Modelled from the spec: `C_DEGREE` from `constants.js` (not under `src/`),
the degree character appended to every converted temperature. -/
def cDegree : String := "°"

/-- Modelled from the spec: `C_WINDIR` from `constants.js` (not under `src/`),
the 16-point compass table indexed by
`floor((deg mod 360)/22.5 + 0.5) mod 16`; the spec fixes
`0 ↦ "N"`, `11 ↦ "N"`, `348.75 ↦ "N"`, `90 ↦ "E"`, `180 ↦ "S"`. -/
def cWindir : List String :=
  ["N", "NNE", "NE", "ENE", "E", "ESE", "SE", "SSE",
   "S", "SSW", "SW", "WSW", "W", "WNW", "NW", "NNW"]

/-- JavaScript number-to-integer truncation (`Math.trunc`, the rounding used
by the `%` operator): toward zero. -/
def ratTrunc (q : ℚ) : ℤ := if 0 ≤ q then ⌊q⌋ else ⌈q⌉

/-- The JavaScript `%` operator on numbers: `a - b * trunc(a / b)`. -/
def jsMod (a b : ℚ) : ℚ := a - b * (ratTrunc (a / b) : ℤ)

/-- `pad0(num, len=2, pad='0')` from `src/index.js`:
`('0'.repeat(2) + num).slice(-2)` — pad the decimal form to (the last)
two characters. -/
def pad0 (n : ℤ) : String := (("00" ++ toString n).takeRight 2)

/-- `Date.prototype.toHHMM` from `src/index.js` applied to a `Date` holding
`ms` milliseconds: `pad0(getUTCHours()) + ':' + pad0(getUTCMinutes())`. -/
def toHHMM (ms : ℤ) : String :=
  pad0 ((ms.fdiv 3600000).emod 24) ++ ":" ++ pad0 ((ms.fdiv 60000).emod 60)

/-- Gregorian civil date from days since the Unix epoch (the arithmetic the
JavaScript `Date` getters `getUTCMonth`/`getUTCDate` perform); returns
`(year, month, day)`. -/
def civilFromDays (z0 : ℤ) : ℤ × ℤ × ℤ :=
  let z := z0 + 719468
  let era := z.fdiv 146097
  let doe := z - era * 146097
  let yoe := (doe - doe.fdiv 1460 + doe.fdiv 36524 - doe.fdiv 146096).fdiv 365
  let y := yoe + era * 400
  let doy := doe - (365 * yoe + yoe.fdiv 4 - yoe.fdiv 100)
  let mp := (5 * doy + 2).fdiv 153
  let d := doy - (153 * mp + 2).fdiv 5 + 1
  let m := mp + (if mp < 10 then 3 else -9)
  (y + (if m ≤ 2 then 1 else 0), m, d)

/-- `Date.prototype.toMMDD_HHMM` from `src/index.js` applied to a `Date`
holding `ms` milliseconds:
`pad0(getUTCMonth()+1) + '-' + pad0(getUTCDate()) + ' ' + toHHMM()`. -/
def toMMDD_HHMM (ms : ℤ) : String :=
  let c := civilFromDays (ms.fdiv 86400000)
  pad0 c.2.1 ++ "-" ++ pad0 c.2.2 ++ " " ++ toHHMM ms

/-- `kelvinToUnit(units, p)` from `update_variables` in `src/index.js`:
`'f' ↦ Math.floor((p-273.15)*9/5 + 32.49) + C_DEGREE`,
`'c' ↦ Math.floor(p-273.15+0.49) + C_DEGREE`,
otherwise `Math.floor(p+0.49) + C_DEGREE`. -/
def kelvinToUnit (units : String) (p : ℚ) : String :=
  match units with
  | "f" => toString ⌊(p - 273.15) * 9 / 5 + 32.49⌋ ++ cDegree
  | "c" => toString ⌊p - 273.15 + 0.49⌋ ++ cDegree
  | _ => toString ⌊p + 0.49⌋ ++ cDegree

/-- `hpaToUnit(units, p)` from `update_variables` in `src/index.js`:
`'i' ↦ Math.floor((p/33.863886666667)*100)/100`,
`'m' ↦ Math.floor((p/133.322387415)*100)`, otherwise `p`. -/
def hpaToUnit (units : String) (p : ℚ) : ℚ :=
  match units with
  | "i" => (⌊p / 33.863886666667 * 100⌋ : ℤ) / 100
  | "m" => (⌊p / 133.322387415 * 100⌋ : ℤ)
  | _ => p

/-- `speedToUnit(units, p)` from `update_variables` in `src/index.js`:
`'m' ↦ Math.floor(p*100+0.49)/100`, `'i' ↦ Math.floor(p*22.3694+0.49)/10`,
otherwise `p`. -/
def speedToUnit (units : String) (p : ℚ) : ℚ :=
  match units with
  | "m" => (⌊p * 100 + 0.49⌋ : ℤ) / 100
  | "i" => (⌊p * 22.3694 + 0.49⌋ : ℤ) / 10
  | _ => p

/-- The index into `C_WINDIR` computed by the `c_winddir` arm of
`update_variables`: `Math.floor((deg % 360) / 22.5 + 0.5) % 16`
(JavaScript truncating `%`). -/
def windIdx (deg : ℚ) : ℤ := (⌊jsMod deg 360 / 22.5 + 0.5⌋).tmod 16

/-- The effective UTC offset (seconds) selected by the `switch (this.config.tz)`
at the top of `update_variables`: `'h' ↦ -getTimezoneOffset()*60` (the host
offset in minutes is a parameter here), `'u' ↦ 0`, otherwise the document's
`timezone` field kept verbatim. -/
def effOffset (mode : String) (docTz hostOffMin : ℤ) : ℤ :=
  match mode with
  | "h" => -hostOffMin * 60
  | "u" => 0
  | _ => docTz

/-- The mutable fields of the `OWInstance` that the embedded operations read
or write.  `vars` is the companion-side variable store (the accumulated
effect of `setVariableValues`); `heartbeat` records whether the 60 s interval
timer is armed; `update` is `this.config.refresh * 60000`. -/
structure InstState where
  config : Config
  weather : Option WeatherDoc
  update : ℤ
  lastPolled : ℤ
  icons : String → Option String
  iconID : String
  mph : Bool
  hasError : Bool
  tz : ℤ
  isDay : Bool
  heartbeat : Bool
  vars : String → Option JSVal

/-- One `setVariableValues` assignment for a single key. -/
def setVar (st : String → Option JSVal) (k : String) (v : JSVal) :
    String → Option JSVal :=
  fun x => if x = k then some v else st x

/-- `setVariableValues(vars)`: merge a list of key/value pairs into the
store, in order. -/
def setVars (st : String → Option JSVal) :
    List (String × JSVal) → (String → Option JSVal)
  | [] => st
  | (k, v) :: rest => setVars (setVar st k v) rest

/-- `init_vars` from `src/index.js`: reset the internal status fields and
re-advertise the variable definitions.  Modelled from the spec for the host
side of `setVariableDefinitions`: advertising the definitions puts every
output variable back into its initial empty (unset) state, so `vars` is
cleared. -/
def initVars (s : InstState) : InstState :=
  { s with
    weather := none
    update := s.config.refresh * 60000
    lastPolled := 0
    icons := fun _ => none
    iconID := ""
    mph := s.config.units = "i"
    hasError := false
    tz := 0
    vars := fun _ => none }

/-- `update_localtimes` from `src/index.js`: recompute `l_localtime` and
`l_time` from the current wall clock `nowMs` shifted by `this.tz * 1000`
milliseconds. -/
def updateLocaltimes (s : InstState) (nowMs : ℤ) : InstState :=
  let shifted := nowMs + s.tz * 1000
  { s with
    vars := setVars s.vars
      [("l_localtime", .str (toMMDD_HHMM shifted)),
       ("l_time", .str (toHHMM shifted))] }

/-- `update_graphic(cond)` from `src/index.js`, in terms of the two state
cells it reads (`this.iconID`, `this.icons`): take `cond[0].icon`; when it
differs from the active code, record it as the new active code at once and,
unless a bitmap is already cached for it, issue the icon HTTP GET (returned
as `some code`).  (`cond[0]` on an empty list would throw in JavaScript; the
`headD` default stands for that unreachable case.) -/
def updateGraphic (iconID : String) (icons : String → Option String)
    (cond : List WeatherCond) : String × Option String :=
  let code := (cond.headD { icon := "", main := "", description := "" }).icon
  if code ≠ iconID then
    if (icons code).isSome then (code, none) else (code, some code)
  else (iconID, none)

/-- Completion of an icon HTTP GET. -/
inductive IconResult where
  | ok (png : String) : IconResult
  | badStatus (status : ℤ) : IconResult
  | err (msg : String) : IconResult

/-- The icon GET callback from `update_graphic`: on a 200 response the
decoded, resized, base64-encoded bitmap (an opaque string here, the Jimp
pipeline being external) is stored under `code`; a non-200 response does
nothing; the transport error handler only logs and reports. -/
def handleIconFetch (icons : String → Option String) (code : String)
    (r : IconResult) : String → Option String :=
  match r with
  | .ok png => fun c => if c = code then some png else icons c
  | .badStatus _ => icons
  | .err _ => icons

/-- `update_variables(data)` from `src/index.js`, specialised to the variable
table.  Modelled from the spec for `VARIABLE_LIST` (in `constants.js`, not
under `src/`): the declarative `{section, data}` table is instantiated with
the entries the `switch` arms of the source handle — `l_name` (section `''`,
field `name`; `l_localtime`/`l_time` are skipped by the `continue`),
`c_text`/`c_desc` (section `weather`, each triggering `update_graphic`),
`c_temp`/`c_feels`/`c_press`/`c_wind` (section `local`),
`c_temp?`/`c_feel?` for `k`/`c`/`f`, `c_inhg`/`c_mmhg`/`c_hpa`/`c_humid`
(section `main`), `c_winddir`/`c_day` (section `internal`) and
`c_time`/`c_sunrise`/`c_sunset` (section `time`).
Mirrors the source ordering of effects: `this.tz = data.timezone` is
assigned *before* the `switch (this.config.tz)` computes the local `tz`
used by the `time` section.  Returns the new state together with the list
of icon GETs issued from inside the loop. -/
def updateVariables (s : InstState) (data : WeatherDoc) (hostOffMin : ℤ) :
    InstState × List String :=
  let tzLoc := effOffset s.config.tz data.timezone hostOffMin
  let g1 := updateGraphic s.iconID s.icons data.weather
  let g2 := updateGraphic g1.1 s.icons data.weather
  let day := decide (data.dt > data.sys.sunrise ∧ data.dt < data.sys.sunset)
  let cond0 := data.weather.headD { icon := "", main := "", description := "" }
  let kv : List (String × JSVal) :=
    [("l_name", .str data.name),
     ("c_text", .str cond0.main),
     ("c_desc", .str cond0.description),
     ("c_temp", .str (kelvinToUnit (if s.mph then "f" else "c") data.main.temp)),
     ("c_feels", .str (kelvinToUnit (if s.mph then "f" else "c") data.main.feels_like)),
     ("c_press", .num (hpaToUnit (if s.mph then "i" else "m") data.main.pressure)),
     ("c_wind", .num (speedToUnit (if s.mph then "i" else "m") data.wind.speed)),
     ("c_tempk", .str (kelvinToUnit "k" data.main.temp)),
     ("c_feelk", .str (kelvinToUnit "k" data.main.feels_like)),
     ("c_tempc", .str (kelvinToUnit "c" data.main.temp)),
     ("c_feelc", .str (kelvinToUnit "c" data.main.feels_like)),
     ("c_tempf", .str (kelvinToUnit "f" data.main.temp)),
     ("c_feelf", .str (kelvinToUnit "f" data.main.feels_like)),
     ("c_inhg", .num (hpaToUnit "i" data.main.pressure)),
     ("c_mmhg", .num (hpaToUnit "m" data.main.pressure)),
     ("c_hpa", .num (hpaToUnit "h" data.main.pressure)),
     ("c_humid", .str (toString data.main.humidity ++ "%")),
     ("c_winddir", .str (cWindir.getD (windIdx data.wind.deg).toNat "")),
     ("c_day", .bool day),
     ("c_time", .str (toMMDD_HHMM ((data.dt + tzLoc) * 1000))),
     ("c_sunrise", .str (toHHMM ((data.sys.sunrise + tzLoc) * 1000))),
     ("c_sunset", .str (toHHMM ((data.sys.sunset + tzLoc) * 1000)))]
  ({ s with
      weather := some data
      tz := data.timezone
      iconID := g2.1
      isDay := day
      vars := setVars s.vars kv },
   g1.2.toList ++ g2.2.toList)

/-- Completion of the weather poll GET, mirroring the three-way dispatch of
the callback in `refresh` (`data.error` present / `statusCode == 200` /
any other status with the body's `message`) plus the request-level
`.on('error')` handler. -/
inductive PollResult where
  | providerError (msg : String) : PollResult
  | ok (d : WeatherDoc) : PollResult
  | unexpected (status : ℤ) (msg : String) : PollResult
  | transportError (msg : String) : PollResult

/-- The poll completion callback from `refresh` in `src/index.js`:
`data.error` → log, `UnknownError` status, latch `hasError`;
status 200 → `Ok` status and `update_variables` (note: `hasError` is *not*
assigned in this branch); any other status → log, `UnknownError` status,
`init_vars()` and then `setVariableValues({l_name: data.message})`;
the `.on('error')` transport handler → log and `Error` status only.
Returns the new state and the icon GETs issued (via `update_variables`). -/
def handlePoll (s : InstState) (r : PollResult) (hostOffMin : ℤ) :
    InstState × List String :=
  match r with
  | .providerError _ => ({ s with hasError := true }, [])
  | .ok d => updateVariables s d hostOffMin
  | .unexpected _ msg =>
    let s := initVars s
    ({ s with vars := setVars s.vars [("l_name", .str msg)] }, [])
  | .transportError _ => (s, [])

/-- The `client.on('error')` handler installed by `init_connection`:
`ConnectionFailure` status and `this.hasError = true`. -/
def clientOnError (s : InstState) : InstState := { s with hasError := true }

/-- `refresh()` from `src/index.js`: issue the weather GET (returned as
`true`) only when `hasError` is not latched and at least 60000 ms have
passed since `lastPolled`; `lastPolled` is set to `Date.now()` at issue
time. -/
def refresh (s : InstState) (now : ℤ) : InstState × Bool :=
  if s.hasError = false ∧ s.lastPolled + 60000 ≤ now then
    ({ s with lastPolled := now }, true)
  else (s, false)

/-- `pulse()` from `src/index.js` (the 60 s heartbeat): call `refresh` when
`lastPolled + update - now ≤ 0`, then always recompute the local-time
variables. -/
def pulse (s : InstState) (now : ℤ) : InstState × Bool :=
  if s.lastPolled + s.update - now ≤ 0 then
    let r := refresh s now
    (updateLocaltimes r.1 now, r.2)
  else (updateLocaltimes s now, false)

/-- `init_connection` from `src/index.js`: recreate the client, clear the
heartbeat, and when the API key is missing report `BadConfig` and stop;
otherwise arm the heartbeat, `refresh()` and `update_localtimes()`.
Returns whether the immediate poll issued its GET. -/
def initConnection (s : InstState) (now : ℤ) : InstState × Bool :=
  let s := { s with heartbeat := false }
  if s.config.apikey = "" then (s, false)
  else
    let s := { s with heartbeat := true }
    let r := refresh s now
    (updateLocaltimes r.1 now, r.2)

/-- `destroy` from `src/index.js`: stop the heartbeat, `init_vars()`, drop
the client. -/
def destroy (s : InstState) : InstState :=
  initVars { s with heartbeat := false }

/-- `configUpdated(config)` from `src/index.js`: store the new config, tear
everything down (`destroy`), and start again (`init_connection`; the
action/feedback/preset re-registrations carry no state the claims
mention). -/
def configUpdated (s : InstState) (cfg : Config) (now : ℤ) :
    InstState × Bool :=
  initConnection (destroy { s with config := cfg }) now

/-! ### Concrete fixtures used by scenario conjuncts, witnesses and
counterexamples -/

/-- A concrete valid configuration: imperial units, UTC timezone mode,
20-minute refresh. -/
def baseConfig : Config :=
  { apikey := "abc123", location := "Oslo", units := "i", tz := "u", refresh := 20 }

/-- A concrete healthy controller state under `baseConfig`. -/
def baseState0 : InstState :=
  { config := baseConfig, weather := none, update := 1200000, lastPolled := 0,
    icons := fun _ => none, iconID := "", mph := true, hasError := false,
    tz := 0, isDay := false, heartbeat := true, vars := fun _ => none }

/-- A concrete weather-condition entry with icon code `01d`. -/
def cond1 : WeatherCond := { icon := "01d", main := "Clear", description := "clear sky" }

/-- A concrete raw weather document: `main.temp = 300.15` K, UTC offset
3600 s, wind bearing 90°. -/
def baseDoc : WeatherDoc :=
  { name := "Oslo", dt := 1760200000, timezone := 3600,
    main := { temp := 300.15, feels_like := 295, pressure := 1013.25, humidity := 50 },
    wind := { speed := 10, deg := 90 },
    sys := { sunrise := 1760170000, sunset := 1760210000 },
    weather := [cond1] }

/-- `baseDoc` with the wind bearing replaced. -/
def mkDeg (q : ℚ) : WeatherDoc := { baseDoc with wind := { speed := 10, deg := q } }

/-- `baseState0` with the error latch set. -/
def latchedState : InstState := { baseState0 with hasError := true }

/-! ### Helper lemmas -/

theorem updateLocaltimes_hasError (s : InstState) (n : ℤ) :
    (updateLocaltimes s n).hasError = s.hasError := rfl

theorem updateLocaltimes_lastPolled (s : InstState) (n : ℤ) :
    (updateLocaltimes s n).lastPolled = s.lastPolled := rfl

theorem updateLocaltimes_update (s : InstState) (n : ℤ) :
    (updateLocaltimes s n).update = s.update := rfl

/-! ### Claim theorems -/

/-- Claim C1: for every finite Kelvin temperature in the payload, the
Fahrenheit temperature variables (`c_temp` and `c_feels` when units are
imperial, and `c_tempf`/`c_feelf` always) equal
`floor((K−273.15)·9/5 + 32.49)` followed by the degree character, the
Celsius variables equal `floor(K−273.15+0.49)` followed by the degree
character, the Kelvin display is `floor(K+0.49)` followed by the degree
character; and a raw document with `main.temp = 300.15` K under imperial
units yields `c_temp = "81°"`. -/
theorem kelvin_conversion_variables (s : InstState) (d : WeatherDoc) (ho : ℤ) :
    ((updateVariables { s with mph := true } d ho).1.vars "c_temp"
       = some (.str (toString ⌊(d.main.temp - 273.15) * 9 / 5 + 32.49⌋ ++ cDegree))) ∧
    ((updateVariables { s with mph := true } d ho).1.vars "c_feels"
       = some (.str (toString ⌊(d.main.feels_like - 273.15) * 9 / 5 + 32.49⌋ ++ cDegree))) ∧
    ((updateVariables s d ho).1.vars "c_tempf"
       = some (.str (toString ⌊(d.main.temp - 273.15) * 9 / 5 + 32.49⌋ ++ cDegree))) ∧
    ((updateVariables s d ho).1.vars "c_feelf"
       = some (.str (toString ⌊(d.main.feels_like - 273.15) * 9 / 5 + 32.49⌋ ++ cDegree))) ∧
    ((updateVariables s d ho).1.vars "c_tempc"
       = some (.str (toString ⌊d.main.temp - 273.15 + 0.49⌋ ++ cDegree))) ∧
    ((updateVariables s d ho).1.vars "c_feelc"
       = some (.str (toString ⌊d.main.feels_like - 273.15 + 0.49⌋ ++ cDegree))) ∧
    ((updateVariables s d ho).1.vars "c_tempk"
       = some (.str (toString ⌊d.main.temp + 0.49⌋ ++ cDegree))) ∧
    ((updateVariables s d ho).1.vars "c_feelk"
       = some (.str (toString ⌊d.main.feels_like + 0.49⌋ ++ cDegree))) ∧
    ((updateVariables baseState0 baseDoc 0).1.vars "c_temp" = some (.str "81°")) := by
  refine ⟨rfl, rfl, rfl, rfl, rfl, rfl, rfl, rfl, ?_⟩
  have h : ⌊((300.15:ℚ) - 273.15) * 9 / 5 + 32.49⌋ = (81:ℤ) := by norm_num
  show some (JSVal.str (toString ⌊((300.15:ℚ) - 273.15) * 9 / 5 + 32.49⌋ ++ cDegree))
      = some (JSVal.str "81°")
  rw [h]
  rfl

/-- Claim C4 counterexample: a poll that completes with HTTP status 200 and
no provider error envelope while `hasError` is latched leaves `hasError`
set — the 200 branch of the callback never assigns `hasError`, so it is not
"cleared (set to false)" there. -/
theorem ok_branch_keeps_latch_cx :
    ((handlePoll latchedState (.ok baseDoc) 0).1.hasError = true) ∧
    ¬((handlePoll latchedState (.ok baseDoc) 0).1.hasError = false) :=
  ⟨rfl, by decide⟩

/-- Claim C4 (amended): the 200-status branch of the poll callback leaves
`hasError` unchanged rather than assigning it false (so a fetch issued while
the latch was clear, completing 200 with no intervening error event, leaves
it clear); the latch is set by the provider-error branch and by the
client-level error handler, is left unchanged by the transport-error
handler, and is cleared only by `init_vars` — which runs on
reinitialisation and in the unexpected-response branch. -/
theorem ok_branch_preserves_hasError (s : InstState) (d : WeatherDoc)
    (m : String) (status ho : ℤ) :
    ((handlePoll s (.ok d) ho).1.hasError = s.hasError) ∧
    ((handlePoll s (.providerError m) ho).1.hasError = true) ∧
    ((handlePoll s (.transportError m) ho).1.hasError = s.hasError) ∧
    ((clientOnError s).hasError = true) ∧
    ((initVars s).hasError = false) ∧
    ((handlePoll s (.unexpected status m) ho).1.hasError = false) :=
  ⟨rfl, rfl, rfl, rfl, rfl, rfl⟩

/-- Claim C7: in the unexpected-response branch (non-200 status without a
provider error envelope) exactly one output variable, `l_name`, is set — to
the provider's message — and every other output variable is back in its
initial empty (unset) state, a full reset; and the `hasError` latch is not
set by this path. -/
theorem unexpected_response_full_reset (s : InstState) (status : ℤ)
    (msg : String) (ho : ℤ) :
    ((handlePoll s (.unexpected status msg) ho).1.vars
       = fun k => if k = "l_name" then some (.str msg) else none) ∧
    ((handlePoll s (.unexpected status msg) ho).1.hasError = false) :=
  ⟨rfl, rfl⟩

/-- Claim C8 (amended): on every scheduler tick `l_time` and `l_localtime`
are recomputed from `this.tz`, and `update_variables` assigns `this.tz` the
document's provided offset verbatim in **every** timezone mode — the
assignment `this.tz = tz` happens before the `switch (this.config.tz)`
mutates the local `tz`.  The mode-selected effective offset (host-local:
negative host offset minutes→seconds, utc: zero, location: document offset)
is applied only to the `c_time`/`c_sunrise`/`c_sunset` variables. -/
theorem localtime_uses_document_offset (s : InstState) (d : WeatherDoc)
    (ho nowMs : ℤ) :
    ((updateVariables s d ho).1.tz = d.timezone) ∧
    ((updateLocaltimes s nowMs).vars "l_time"
       = some (.str (toHHMM (nowMs + s.tz * 1000)))) ∧
    ((updateLocaltimes s nowMs).vars "l_localtime"
       = some (.str (toMMDD_HHMM (nowMs + s.tz * 1000)))) ∧
    ((updateVariables s d ho).1.vars "c_time"
       = some (.str (toMMDD_HHMM ((d.dt + effOffset s.config.tz d.timezone ho) * 1000)))) ∧
    ((updateVariables s d ho).1.vars "c_sunrise"
       = some (.str (toHHMM ((d.sys.sunrise + effOffset s.config.tz d.timezone ho) * 1000)))) :=
  ⟨rfl, rfl, rfl, rfl, rfl⟩

/-- Claim C8 counterexample: with timezone mode `u` (UTC, effective offset
zero) configured and a document whose own offset is 3600 s, the wall-clock
variable `l_time` recomputed at epoch 0 reads `"01:00"` — the document's
offset, not the mode-selected offset, whose formatting would give
`"00:00"`. -/
theorem localtime_mode_offset_cx :
    ((updateLocaltimes ((updateVariables baseState0 baseDoc 0).1) 0).vars "l_time"
        = some (.str "01:00")) ∧
    (toHHMM (0 + effOffset baseState0.config.tz baseDoc.timezone 0 * 1000) = "00:00") ∧
    ¬((updateLocaltimes ((updateVariables baseState0 baseDoc 0).1) 0).vars "l_time"
        = some (.str (toHHMM (0 + effOffset baseState0.config.tz baseDoc.timezone 0 * 1000)))) := by
  refine ⟨by decide, by decide, by decide⟩

/-- Claim C2: two invocations of `refresh` (and likewise two heartbeat
`pulse`s) whose issue times are less than 60 s apart, with no
reinitialisation between them, issue at most one upstream weather GET;
`refresh` fetches exactly when `hasError` is false and
`lastPolled + 60000 ≤ now`; `lastPolled` is set to `now` at fetch-issue
time, and poll completion (success or provider error) leaves it
unchanged. -/
theorem refresh_poll_guard (s : InstState) (n1 n2 : ℤ)
    (h1 : n1 ≤ n2) (h2 : n2 < n1 + 60000) :
    (¬((refresh s n1).2 = true ∧ (refresh (refresh s n1).1 n2).2 = true)) ∧
    (¬((pulse s n1).2 = true ∧ (pulse (pulse s n1).1 n2).2 = true)) ∧
    ((refresh s n1).2 = true ↔ (s.hasError = false ∧ s.lastPolled + 60000 ≤ n1)) ∧
    ((refresh s n1).2 = true → (refresh s n1).1.lastPolled = n1) ∧
    (∀ d ho, ((handlePoll s (.ok d) ho).1).lastPolled = s.lastPolled) ∧
    (∀ m ho, ((handlePoll s (.providerError m) ho).1).lastPolled = s.lastPolled) := by
  refine ⟨?_, ?_, ?_, ?_, fun d ho => rfl, fun m ho => rfl⟩
  · simp only [refresh]
    split_ifs with hc1 <;> simp_all
    omega
  · simp only [pulse, refresh, updateLocaltimes]
    split_ifs <;> simp_all
    omega
  · simp only [refresh]
    split_ifs with hc1 <;> simp_all
  · simp only [refresh]
    split_ifs with hc1 <;> simp_all

/-- Witness for C2 at a concrete input: two refreshes at 0 ms and 1000 ms. -/
theorem refresh_poll_guard_witness :
    ((0:ℤ) ≤ 1000 ∧ (1000:ℤ) < 0 + 60000) ∧
    ¬((refresh baseState0 0).2 = true ∧
      (refresh (refresh baseState0 0).1 1000).2 = true) :=
  ⟨⟨by decide, by decide⟩,
   (refresh_poll_guard baseState0 0 1000 (by decide) (by decide)).1⟩

/-- Claim C3: after a poll completes with a provider error envelope the
`hasError` latch is set and every subsequent manual `refresh` or heartbeat
`pulse` issues no new weather GET; after `configUpdated` runs (same or new
config, as long as an API key is present) polling resumes with an immediate
poll. -/
theorem provider_error_latch_and_resume (s : InstState) (msg : String)
    (cfg : Config) (ho n n2 : ℤ) (hkey : ¬cfg.apikey = "") (hn2 : 60000 ≤ n2) :
    ((handlePoll s (.providerError msg) ho).1.hasError = true) ∧
    ((refresh (handlePoll s (.providerError msg) ho).1 n).2 = false) ∧
    ((pulse (handlePoll s (.providerError msg) ho).1 n).2 = false) ∧
    ((configUpdated (handlePoll s (.providerError msg) ho).1 cfg n2).2 = true) := by
  refine ⟨rfl, ?_, ?_, ?_⟩
  · simp [handlePoll, refresh]
  · simp [handlePoll, pulse, refresh]
  · simp [handlePoll, configUpdated, initConnection, destroy, initVars, refresh, hkey, hn2]

/-- Witness for C3 at a concrete input: latch from a provider error on
`baseState0`, then reconfigure with `baseConfig` at 60000 ms. -/
theorem provider_error_latch_and_resume_witness :
    (¬baseConfig.apikey = "" ∧ (60000:ℤ) ≤ 60000) ∧
    ((configUpdated (handlePoll baseState0 (.providerError "bad key") 0).1
        baseConfig 60000).2 = true) :=
  ⟨⟨by decide, by decide⟩,
   (provider_error_latch_and_resume baseState0 "bad key" baseConfig 0 0 60000
      (by decide) (by decide)).2.2.2⟩

/-- Claim C10: after the unexpected-response branch of a poll completion
runs, the controller state has `hasError = false`, `lastPolled = 0`,
`icons` the empty map and `iconID` the empty string; consequently the next
manual `refresh` (and the next heartbeat `pulse`, once the refresh interval
is reached against `lastPolled = 0`, which real epoch clocks always are)
issues an immediate poll without waiting out the 60-second guard. -/
theorem unexpected_branch_reset_state (s : InstState) (status : ℤ)
    (msg : String) (ho n : ℤ) (hn : 60000 ≤ n) :
    ((handlePoll s (.unexpected status msg) ho).1.hasError = false) ∧
    ((handlePoll s (.unexpected status msg) ho).1.lastPolled = 0) ∧
    ((handlePoll s (.unexpected status msg) ho).1.icons = fun _ => none) ∧
    ((handlePoll s (.unexpected status msg) ho).1.iconID = "") ∧
    ((refresh (handlePoll s (.unexpected status msg) ho).1 n).2 = true) ∧
    ((handlePoll s (.unexpected status msg) ho).1.update ≤ n →
      (pulse (handlePoll s (.unexpected status msg) ho).1 n).2 = true) := by
  refine ⟨rfl, rfl, rfl, rfl, ?_, ?_⟩
  · simp [handlePoll, initVars, refresh, hn]
  · intro hup
    simp only [handlePoll, initVars] at hup
    simp [handlePoll, initVars, pulse, refresh, hn]
    rw [if_pos hup]

/-- Witness for C10 at a concrete input: a 404 without error envelope on
`baseState0`, next refresh at epoch 1760200000000 ms. -/
theorem unexpected_branch_reset_state_witness :
    ((60000:ℤ) ≤ 1760200000000) ∧
    ((refresh (handlePoll baseState0 (.unexpected 404 "city not found") 0).1
        1760200000000).2 = true) :=
  ⟨by decide,
   (unexpected_branch_reset_state baseState0 404 "city not found" 0 1760200000000
      (by decide)).2.2.2.2.1⟩

/-- Claim C5: when the icon-update path is triggered twice in succession
with the same (new, uncached) code before the first icon fetch resolves,
exactly one upstream icon GET is issued: the first trigger records the code
as active and issues the GET, and the second trigger — running against the
still-unchanged cache — issues none. -/
theorem icon_fetch_dedup (iconID : String) (icons : String → Option String)
    (c : WeatherCond) (rest : List WeatherCond)
    (h1 : ¬c.icon = iconID) (h2 : icons c.icon = none) :
    ((updateGraphic iconID icons (c :: rest)).1 = c.icon) ∧
    ((updateGraphic iconID icons (c :: rest)).2 = some c.icon) ∧
    ((updateGraphic (updateGraphic iconID icons (c :: rest)).1 icons (c :: rest)).2
       = none) := by
  simp [updateGraphic, h1, h2]

/-- Witness for C5 at a concrete input: code `01d` against an empty cache
and no active code. -/
theorem icon_fetch_dedup_witness :
    (¬cond1.icon = "" ∧ ((fun _ => none : String → Option String) cond1.icon = none)) ∧
    ((updateGraphic (updateGraphic "" (fun _ => none) (cond1 :: [])).1
        (fun _ => none) (cond1 :: [])).2 = none) :=
  ⟨⟨by decide, rfl⟩, (icon_fetch_dedup "" (fun _ => none) cond1 [] (by decide) rfl).2.2⟩

/-- Claim C6 counterexample: for the new code `01d` an icon GET is issued,
it fails with a 404 (no bitmap cached), and the subsequent refresh
reporting the same code `01d` issues **no** new upstream icon GET — the
failure is not retried for the same code, contradicting the claim. -/
theorem icon_retry_cx :
    ((updateGraphic "" (fun _ => none) (cond1 :: [])).2 = some "01d") ∧
    (handleIconFetch (fun _ => none) "01d" (.badStatus 404) "01d" = none) ∧
    ((updateGraphic (updateGraphic "" (fun _ => none) (cond1 :: [])).1
        (handleIconFetch (fun _ => none) "01d" (.badStatus 404)) (cond1 :: [])).2
       = none) ∧
    ¬((updateGraphic (updateGraphic "" (fun _ => none) (cond1 :: [])).1
        (handleIconFetch (fun _ => none) "01d" (.badStatus 404)) (cond1 :: [])).2
       = some "01d") :=
  ⟨by decide, rfl, by decide, by decide⟩

/-- Claim C6 (amended): a failed icon fetch for code X (non-200 response or
transport error) caches no bitmap for X, so X is not resolved; however the
active code was already set to X at fetch-issue time, so a subsequent
weather refresh reporting the **same** code X issues no new upstream icon
GET — a retry for X happens only after a different code has become active
in between. -/
theorem icon_fail_no_retry (iconID : String) (icons : String → Option String)
    (c : WeatherCond) (rest : List WeatherCond) (status : ℤ) (m : String)
    (h1 : ¬c.icon = iconID) (h2 : icons c.icon = none) :
    ((updateGraphic iconID icons (c :: rest)).2 = some c.icon) ∧
    (handleIconFetch icons c.icon (.badStatus status) = icons) ∧
    (handleIconFetch icons c.icon (.err m) = icons) ∧
    (handleIconFetch icons c.icon (.badStatus status) c.icon = none) ∧
    ((updateGraphic (updateGraphic iconID icons (c :: rest)).1
        (handleIconFetch icons c.icon (.badStatus status)) (c :: rest)).2 = none) := by
  refine ⟨?_, rfl, rfl, h2, ?_⟩ <;> simp [updateGraphic, handleIconFetch, h1, h2]

/-- Witness for C6's amended theorem at a concrete input: code `01d`,
failing with a 404, against an empty cache and no active code. -/
theorem icon_fail_no_retry_witness :
    (¬cond1.icon = "" ∧ ((fun _ => none : String → Option String) cond1.icon = none)) ∧
    ((updateGraphic (updateGraphic "" (fun _ => none) (cond1 :: [])).1
        (handleIconFetch (fun _ => none) cond1.icon (.badStatus 404)) (cond1 :: [])).2
       = none) :=
  ⟨⟨by decide, rfl⟩,
   (icon_fail_no_retry "" (fun _ => none) cond1 [] 404 "x" (by decide) rfl).2.2.2.2⟩

/-- For a nonnegative bearing the compass index
`floor((deg % 360)/22.5 + 0.5) % 16` lies in `[0, 16)`. -/
theorem windIdx_range (deg : ℚ) (h : 0 ≤ deg) : 0 ≤ windIdx deg ∧ windIdx deg < 16 := by
  have hq : (0:ℚ) ≤ deg / 360 := by positivity
  have hfl : (⌊deg / 360⌋ : ℚ) ≤ deg / 360 := Int.floor_le _
  have hfu : deg / 360 < (⌊deg / 360⌋ : ℚ) + 1 := Int.lt_floor_add_one _
  have hm0 : 0 ≤ jsMod deg 360 := by
    unfold jsMod ratTrunc
    rw [if_pos hq]
    linarith
  have hm360 : jsMod deg 360 < 360 := by
    unfold jsMod ratTrunc
    rw [if_pos hq]
    linarith
  have hd0 : 0 ≤ jsMod deg 360 / 22.5 := div_nonneg hm0 (by norm_num)
  have hd16 : jsMod deg 360 / 22.5 < 16 := by
    rw [div_lt_iff₀ (by norm_num : (0:ℚ) < 22.5)]
    linarith
  have h1 : (0:ℤ) ≤ ⌊jsMod deg 360 / 22.5 + 0.5⌋ := by
    apply Int.le_floor.mpr
    push_cast
    linarith
  have h2 : ⌊jsMod deg 360 / 22.5 + 0.5⌋ < (17:ℤ) := by
    apply Int.floor_lt.mpr
    push_cast
    linarith
  unfold windIdx
  exact ⟨Int.tmod_nonneg 16 h1, Int.tmod_lt_of_pos _ (by norm_num)⟩

/-- Claim C9: for every (nonnegative) wind bearing the `c_winddir` variable
is the entry of the 16-point compass table at index
`floor((deg mod 360)/22.5 + 0.5) mod 16` (the index always lands inside the
table); in particular bearings 0, 11 and 348.75 map to `"N"` and bearing
180 maps to `"S"`. -/
theorem winddir_compass_formula (s : InstState) (d : WeatherDoc) (ho : ℤ)
    (hdeg : 0 ≤ d.wind.deg) :
    (0 ≤ windIdx d.wind.deg ∧ windIdx d.wind.deg < 16) ∧
    ((updateVariables s d ho).1.vars "c_winddir"
       = some (.str (cWindir.getD (windIdx d.wind.deg).toNat ""))) ∧
    ((updateVariables s (mkDeg 0) ho).1.vars "c_winddir" = some (.str "N")) ∧
    ((updateVariables s (mkDeg 11) ho).1.vars "c_winddir" = some (.str "N")) ∧
    ((updateVariables s (mkDeg 348.75) ho).1.vars "c_winddir" = some (.str "N")) ∧
    ((updateVariables s (mkDeg 180) ho).1.vars "c_winddir" = some (.str "S")) := by
  refine ⟨windIdx_range d.wind.deg hdeg, rfl, ?_, ?_, ?_, ?_⟩
  · have hf : ⌊jsMod (0:ℚ) 360 / 22.5 + 0.5⌋ = (0:ℤ) := by norm_num [jsMod, ratTrunc]
    have h : windIdx ((mkDeg 0).wind.deg) = 0 := by
      show windIdx (0:ℚ) = 0
      unfold windIdx
      rw [hf]
      decide
    show some (JSVal.str (cWindir.getD (windIdx ((mkDeg 0).wind.deg)).toNat ""))
        = some (JSVal.str "N")
    rw [h]
    rfl
  · have hf : ⌊jsMod (11:ℚ) 360 / 22.5 + 0.5⌋ = (0:ℤ) := by norm_num [jsMod, ratTrunc]
    have h : windIdx ((mkDeg 11).wind.deg) = 0 := by
      show windIdx (11:ℚ) = 0
      unfold windIdx
      rw [hf]
      decide
    show some (JSVal.str (cWindir.getD (windIdx ((mkDeg 11).wind.deg)).toNat ""))
        = some (JSVal.str "N")
    rw [h]
    rfl
  · have hf : ⌊jsMod (348.75:ℚ) 360 / 22.5 + 0.5⌋ = (16:ℤ) := by norm_num [jsMod, ratTrunc]
    have h : windIdx ((mkDeg 348.75).wind.deg) = 0 := by
      show windIdx (348.75:ℚ) = 0
      unfold windIdx
      rw [hf]
      decide
    show some (JSVal.str (cWindir.getD (windIdx ((mkDeg 348.75).wind.deg)).toNat ""))
        = some (JSVal.str "N")
    rw [h]
    rfl
  · have hf : ⌊jsMod (180:ℚ) 360 / 22.5 + 0.5⌋ = (8:ℤ) := by norm_num [jsMod, ratTrunc]
    have h : windIdx ((mkDeg 180).wind.deg) = 8 := by
      show windIdx (180:ℚ) = 8
      unfold windIdx
      rw [hf]
      decide
    show some (JSVal.str (cWindir.getD (windIdx ((mkDeg 180).wind.deg)).toNat ""))
        = some (JSVal.str "S")
    rw [h]
    rfl

/-- Witness for C9 at a concrete input: bearing 90 (which the spec maps to
`"E"`). -/
theorem winddir_compass_formula_witness :
    ((0:ℚ) ≤ (mkDeg 90).wind.deg) ∧
    (0 ≤ windIdx (mkDeg 90).wind.deg ∧ windIdx (mkDeg 90).wind.deg < 16) :=
  ⟨by norm_num [mkDeg, baseDoc],
   (winddir_compass_formula baseState0 (mkDeg 90) 0 (by norm_num [mkDeg, baseDoc])).1⟩

end OW
